import Mathlib

/-!
Shallow embedding of the carpool marketplace in `src/App.js`.

Modelling conventions:
* JS strings are `String`; `s.includes(t)` is contiguous-substring containment
  on the character lists; `toLowerCase` is `jsToLower`; `trim` is `jsTrim`.
* JS numbers are `Int`: every amount in scope is integer-valued and the app
  only ever adds, subtracts and compares, so float rounding is irrelevant to
  the claims.  A `parseFloat`/`parseInt` result that may be NaN is modelled
  as `Option Int` where the claims need it.
* `toLowerCase` and `trim` are spelled out structurally over the character
  list (`jsToLower`, `jsTrim`) so that concrete runs reduce in the kernel;
  `jsTrim` strips the ASCII whitespace the inputs in scope can contain.
* Firestore documents are association lists keyed by document id; `updateDoc`
  on a missing document throws, which the handlers catch and surface as an
  error message, so the model returns the untouched state with `Res.err`.
* Timestamps (`createdAt`, `requestedAt`) are omitted: no claim mentions them.
* `from` and `to` are Lean keywords, hence the field names `from_`, `to_`.
-/

namespace Carpool

/-- Does `pattern` occur at the head of `text`? -/
def strStartsWith : List Char → List Char → Bool
  | [], _ => true
  | _ :: _, [] => false
  | c :: cs, d :: ds => c = d && strStartsWith cs ds

/-- Does `pattern` occur contiguously anywhere in `text`? -/
def strOccurs (pattern : List Char) : List Char → Bool
  | [] => strStartsWith pattern []
  | c :: rest => strStartsWith pattern (c :: rest) || strOccurs pattern rest

/-- JS `s.includes(sub)`: `sub` occurs as a contiguous substring of `s`. -/
def includes (s sub : String) : Bool :=
  strOccurs sub.data s.data

/-- JS `toLowerCase` on the character list. -/
def jsToLower (s : String) : String :=
  ⟨s.data.map Char.toLower⟩

/-- JS `trim`: drop whitespace from both ends of the character list. -/
def jsTrim (s : String) : String :=
  ⟨(((s.data.dropWhile Char.isWhitespace).reverse.dropWhile
      Char.isWhitespace).reverse)⟩

/-- Outcome of a handler: the message shown by `showMessage` on success or
failure (the app reports everything through a modal). -/
inductive Res where
  | ok (msg : String)
  | err (msg : String)
  deriving Repr, DecidableEq

/-- `Res.isOk` -/
def Res.isOk : Res → Bool
  | .ok _ => true
  | .err _ => false

/-- Vehicle record (`{type, color, plate}`). -/
structure Vehicle where
  vtype : String
  color : String
  plate : String
  deriving Repr, DecidableEq

/-- A ride document in `artifacts/{app}/public/data/rides`.
`route = none` models a document whose `route` field is missing or not an
array. -/
structure Ride where
  id : String
  driverId : String
  driverName : String
  from_ : String
  to_ : String
  startTime : String
  availableSeats : Int
  pricePerSeat : Int
  route : Option (List String)
  car : Vehicle
  status : String
  deriving Repr, DecidableEq

/-- A ride-request document in `artifacts/{app}/public/data/rideRequests`. -/
structure RideRequest where
  id : String
  rideId : String
  riderId : String
  riderName : String
  driverId : String
  driverName : String
  from_ : String
  to_ : String
  rideStartTime : String
  price : Int
  status : String
  deriving Repr, DecidableEq

/-- `checkRouteOverlap(route1, route2)` from App.js:142: `false` when either
argument is not an array or is empty; otherwise lower-case every point and
look for one pair where one point contains the other. -/
def checkRouteOverlap (route1 route2 : Option (List String)) : Bool :=
  match route1, route2 with
  | some r1, some r2 =>
    if r1.isEmpty || r2.isEmpty then false
    else
      (r1.map jsToLower).any fun point1 =>
        (r2.map jsToLower).any fun point2 =>
          includes point1 point2 || includes point2 point1
  | _, _ => false

/-- The search form state `{from, to, route}` in `SearchRides`. -/
structure SearchQuery where
  from_ : String
  to_ : String
  route : List String
  deriving Repr, DecidableEq

/-- `searchQuery.route.filter(p => p.trim())`: the supplied route stops that
are not blank. -/
def searchRoutePoints (q : SearchQuery) : List String :=
  q.route.filter fun p => jsTrim p ≠ ""

/-- `[searchQuery.from, ...searchRoutePoints, searchQuery.to].filter(p => p.trim())`
from `handleSearch`. -/
def fullSearchRoute (q : SearchQuery) : List String :=
  ([q.from_] ++ searchRoutePoints q ++ [q.to_]).filter fun p => jsTrim p ≠ ""

/-- The predicate of the `rides.filter` in `handleSearch` (App.js:849):
from/to substring match when supplied, seats available, and route overlap
against the full search route when that list is non-empty. -/
def rideMatches (q : SearchQuery) (ride : Ride) : Bool :=
  (if q.from_ ≠ "" then includes (jsToLower ride.from_) (jsToLower q.from_) else true)
    && (if q.to_ ≠ "" then includes (jsToLower ride.to_) (jsToLower q.to_) else true)
    && (ride.availableSeats > 0 : Bool)
    && (if fullSearchRoute q ≠ [] then
          checkRouteOverlap ride.route (some (fullSearchRoute q)) else true)

/-- `handleSearch`: filter the ride catalog by `rideMatches`. -/
def handleSearch (rides : List Ride) (q : SearchQuery) : List Ride :=
  rides.filter (rideMatches q)

/-- Modelled from the claim's words (not from the source), for comparison
with `rideMatches`: inclusion decided by from/to substring match and
seat availability alone whenever the criteria supply no route points, with
the overlap check applied only when at least one route point is supplied. -/
def rideMatchesClaim (q : SearchQuery) (ride : Ride) : Bool :=
  (if q.from_ ≠ "" then includes (jsToLower ride.from_) (jsToLower q.from_) else true)
    && (if q.to_ ≠ "" then includes (jsToLower ride.to_) (jsToLower q.to_) else true)
    && (ride.availableSeats > 0 : Bool)
    && (if searchRoutePoints q ≠ [] then
          checkRouteOverlap ride.route (some (searchRoutePoints q)) else true)

/-- The registered profile document stored at
`artifacts/{app}/users/{uid}/userProfile/data`.  A rider is stored with
`vehicle = {}`, modelled as `none`. -/
structure UserProfileDoc where
  name : String
  email : String
  phone : String
  userType : String
  vehicle : Option Vehicle
  verificationStatus : String
  deriving Repr, DecidableEq

/-- The in-memory `currentUser` object: the profile plus the auth id. -/
structure CurrentUser where
  id : String
  name : String
  userType : String
  vehicle : Option Vehicle
  deriving Repr, DecidableEq

/-- The Firestore slice the claims touch: the public rides and rideRequests
collections, the per-user wallet documents (`walletData/balance`) and the
per-user profile documents, both keyed by user id. -/
structure AppState where
  rides : List Ride
  requests : List RideRequest
  wallets : List (String × Int)
  profiles : List (String × UserProfileDoc)
  deriving Repr, DecidableEq

/-- `getDoc` on a wallet document: the first entry for this user id. -/
def walletBal : List (String × Int) → String → Option Int
  | [], _ => none
  | (v, b) :: rest, u => if v = u then some b else walletBal rest u

/-- `updateDoc` on an existing wallet document: overwrite its balance. -/
def setWalletBal (ws : List (String × Int)) (u : String) (b : Int) :
    List (String × Int) :=
  ws.map fun p => if p.1 = u then (u, b) else p

/-- `setDoc` on a profile document: overwrite if present, create otherwise. -/
def setProfileDoc (ps : List (String × UserProfileDoc)) (u : String)
    (d : UserProfileDoc) : List (String × UserProfileDoc) :=
  if ps.any (fun p => p.1 = u) then
    ps.map fun p => if p.1 = u then (u, d) else p
  else ps ++ [(u, d)]

/-- `acceptRequest(requestId, rideId)` from App.js:1050.  `updateDoc` on the
request throws when the document is missing (caught: error, nothing applied).
Otherwise the request's status becomes `accepted`; then the ride document is
read and, only if it exists, its `availableSeats` is overwritten with the
read value minus one — no seat-count guard anywhere. -/
def acceptRequest (s : AppState) (requestId rideId : String) : AppState × Res :=
  if s.requests.any (fun q => q.id = requestId) then
    let s1 : AppState := { s with requests := s.requests.map fun q =>
      if q.id = requestId then { q with status := "accepted" } else q }
    if s1.rides.any (fun r => r.id = rideId) then
      ({ s1 with rides := s1.rides.map fun r =>
          if r.id = rideId then
            { r with availableSeats := r.availableSeats - 1 } else r },
        .ok "Ride request accepted!")
    else (s1, .ok "Ride request accepted!")
  else (s, .err "Failed to accept request.")

/-- `completeRide(rideId, riderId, price)` from App.js:1080, run by the driver
`currentUser` whose live wallet snapshot shows `localBal`.  Marks the ride
completed (throwing, hence erroring, when the ride document is missing), marks
every request for (rideId, riderId) whose status is `accepted` as `completed`,
credits the driver's wallet with `localBal + price` (`updateDoc`, throwing
when the driver has no wallet document, after the ride/request writes already
went through), then reads the rider's wallet and debits it only if that
document exists. -/
def completeRide (s : AppState) (currentUserId : String) (localBal : Int)
    (rideId riderId : String) (price : Int) : AppState × Res :=
  if s.rides.any (fun r => r.id = rideId) then
    let s1 : AppState := { s with rides := s.rides.map fun r =>
      if r.id = rideId then { r with status := "completed" } else r }
    let s2 : AppState := { s1 with requests := s1.requests.map fun q =>
      if q.rideId = rideId ∧ q.riderId = riderId ∧ q.status = "accepted" then
        { q with status := "completed" } else q }
    if (walletBal s2.wallets currentUserId).isSome then
      let s3 : AppState := { s2 with
        wallets := setWalletBal s2.wallets currentUserId (localBal + price) }
      match walletBal s3.wallets riderId with
      | some riderCurrentBalance =>
        ({ s3 with
            wallets := setWalletBal s3.wallets riderId
              (riderCurrentBalance - price) },
          .ok "Ride marked as completed and payment processed!")
      | none => (s3, .ok "Ride marked as completed and payment processed!")
    else (s2, .err "Failed to complete ride.")
  else (s, .err "Failed to complete ride.")

/-- `requestRide(rideId)` from App.js:864, run by `currentUser`; `newId` is
the id Firestore generates for the added document.  Requires role rider, an
existing ride with a free seat, and no pending/accepted request by the same
rider for the same ride; then appends a new pending request built from the
ride. -/
def requestRide (s : AppState) (currentUser : CurrentUser)
    (rideId newId : String) : AppState × Res :=
  if currentUser.userType ≠ "rider" then
    (s, .err "Only riders can request rides.")
  else
    match s.rides.find? (fun r => r.id = rideId) with
    | none => (s, .err "Ride not found.")
    | some ride =>
      if ride.availableSeats ≤ 0 then
        (s, .err "No seats available for this ride.")
      else if s.requests.any (fun q =>
          q.rideId = rideId ∧ q.riderId = currentUser.id ∧
            (q.status = "pending" ∨ q.status = "accepted")) then
        (s, .err "You already have a pending or accepted request for this ride.")
      else
        let newRequest : RideRequest :=
          { id := newId
            rideId := rideId
            riderId := currentUser.id
            riderName := currentUser.name
            driverId := ride.driverId
            driverName := ride.driverName
            from_ := ride.from_
            to_ := ride.to_
            rideStartTime := ride.startTime
            price := ride.pricePerSeat
            status := "pending" }
        ({ s with requests := s.requests ++ [newRequest] },
          .ok "Ride request sent successfully! Driver will be notified.")

/-- `handleWithdrawFunds` from App.js:1468, run by `userId` whose live wallet
snapshot shows `localBal`; `amount = none` models a NaN `parseFloat`.  Rejects
NaN and non-positive amounts, then amounts above the snapshot balance
(insufficient balance); otherwise overwrites the wallet document with
`localBal - amount` (`updateDoc`, throwing when the document is missing). -/
def handleWithdrawFunds (s : AppState) (userId : String) (localBal : Int)
    (amount : Option Int) : AppState × Res :=
  match amount with
  | none => (s, .err "Please enter a valid amount.")
  | some withdrawAmount =>
    if withdrawAmount ≤ 0 then (s, .err "Please enter a valid amount.")
    else if withdrawAmount > localBal then (s, .err "Insufficient balance.")
    else if (walletBal s.wallets userId).isSome then
      ({ s with wallets :=
          setWalletBal s.wallets userId (localBal - withdrawAmount) },
        .ok "Successfully withdrew from your wallet.")
    else (s, .err "Failed to withdraw funds.")

/-- The `PostRide` form state. -/
structure RideDraft where
  from_ : String
  to_ : String
  startTime : String
  availableSeats : Int
  pricePerSeat : Int
  route : List String
  deriving Repr, DecidableEq

/-- `handlePostRide` from App.js:646, run by `currentUser`; `newId` is the id
Firestore generates.  The validation is JS truthiness: a field fails only
when it is the empty string or the number zero — a negative seat count or
price passes.  The role check runs after validation; on success a new active
ride with route `[from, ...non-blank stops, to]` is appended. -/
def handlePostRide (s : AppState) (currentUser : CurrentUser) (d : RideDraft)
    (newId : String) : AppState × Res :=
  if d.from_ = "" ∨ d.to_ = "" ∨ d.startTime = "" ∨
      d.availableSeats = 0 ∨ d.pricePerSeat = 0 then
    (s, .err "Please fill in all required ride details.")
  else if currentUser.userType ≠ "driver" then
    (s, .err "Only drivers can post rides.")
  else
    let newRide : Ride :=
      { id := newId
        driverId := currentUser.id
        driverName := currentUser.name
        from_ := d.from_
        to_ := d.to_
        startTime := d.startTime
        availableSeats := d.availableSeats
        pricePerSeat := d.pricePerSeat
        route := some ([d.from_] ++
          (d.route.filter fun point => jsTrim point ≠ "") ++ [d.to_])
        car := currentUser.vehicle.getD ⟨"Unknown", "Unknown", "N/A"⟩
        status := "active" }
    ({ s with rides := s.rides ++ [newRide] },
      .ok "Ride posted successfully!")

/-- The `Registration` form state (`regData`). -/
structure RegData where
  name : String
  email : String
  phone : String
  userType : String
  vehicle : Vehicle
  licenseUploaded : Bool
  idUploaded : Bool
  deriving Repr, DecidableEq

/-- `handleRegistration` from App.js:195, run by the authenticated `userId`.
Requires name, email, phone, userType non-empty; a driver additionally needs
all vehicle fields and the license flag, a rider the id flag.  On success one
`setDoc` persists the profile with `verificationStatus = "pending"` (vehicle
stored only for drivers); on any validation failure nothing is written. -/
def handleRegistration (s : AppState) (userId : String) (regData : RegData) :
    AppState × Res :=
  if regData.name = "" ∨ regData.email = "" ∨ regData.phone = "" ∨
      regData.userType = "" then
    (s, .err "Please fill in all required fields.")
  else if regData.userType = "driver" ∧
      (regData.vehicle.vtype = "" ∨ regData.vehicle.color = "" ∨
        regData.vehicle.plate = "" ∨ ¬regData.licenseUploaded) then
    (s, .err "Please provide all vehicle details and upload your license.")
  else if regData.userType = "rider" ∧ ¬regData.idUploaded then
    (s, .err "Please upload a valid ID.")
  else
    let newProfile : UserProfileDoc :=
      { name := regData.name
        email := regData.email
        phone := regData.phone
        userType := regData.userType
        vehicle := if regData.userType = "driver" then
          some regData.vehicle else none
        verificationStatus := "pending" }
    ({ s with profiles := setProfileDoc s.profiles userId newProfile },
      .ok "Registration successful! Your profile is pending verification.")

end Carpool

namespace Carpool

/-- Swapping the two nested `any` quantifications over lists. -/
theorem any_any_comm (l1 l2 : List String) (f : String → String → Bool) :
    (l1.any fun a => l2.any fun b => f a b)
      = (l2.any fun b => l1.any fun a => f a b) := by
  rw [Bool.eq_iff_iff]
  simp only [List.any_eq_true]
  constructor
  · rintro ⟨a, ha, b, hb, h⟩
    exact ⟨b, hb, a, ha, h⟩
  · rintro ⟨b, hb, a, ha, h⟩
    exact ⟨a, ha, b, hb, h⟩

/-- The body of `checkRouteOverlap` is symmetric in the two lists. -/
theorem overlap_any_comm (A B : List String) :
    (A.any fun a => B.any fun b => includes a b || includes b a)
      = (B.any fun b => A.any fun a => includes b a || includes a b) := by
  rw [any_any_comm]
  congr 1
  funext b
  congr 1
  funext a
  exact Bool.or_comm _ _

/-- C7: route overlap is symmetric: `checkRouteOverlap(A,B) = checkRouteOverlap(B,A)`
for all waypoint arguments, missing/non-array ones included. -/
theorem checkRouteOverlap_symm (A B : Option (List String)) :
    checkRouteOverlap A B = checkRouteOverlap B A := by
  match A, B with
  | none, none => rfl
  | none, some r => rfl
  | some r, none => rfl
  | some r1, some r2 =>
    simp only [checkRouteOverlap]
    rw [Bool.or_comm r2.isEmpty r1.isEmpty]
    split
    · rfl
    · exact overlap_any_comm _ _

end Carpool

namespace Carpool

/-- Overwriting an existing wallet document changes its looked-up balance. -/
theorem walletBal_set_self (ws : List (String × Int)) (u : String) (b : Int)
    (h : (walletBal ws u).isSome) :
    walletBal (setWalletBal ws u b) u = some b := by
  induction ws with
  | nil => simp [walletBal] at h
  | cons p rest ih =>
    rcases p with ⟨v, c⟩
    by_cases hv : v = u
    · subst hv
      have hs : setWalletBal ((v, c) :: rest) v b
          = (v, b) :: setWalletBal rest v b := by
        simp [setWalletBal]
      rw [hs]
      show (if v = v then some b else walletBal (setWalletBal rest v b) v)
        = some b
      rw [if_pos rfl]
    · have hs : setWalletBal ((v, c) :: rest) u b
          = (v, c) :: setWalletBal rest u b := by
        simp [setWalletBal, hv]
      rw [hs]
      show (if v = u then some c else walletBal (setWalletBal rest u b) u)
        = some b
      rw [if_neg hv]
      have h2 : (walletBal rest u).isSome = true := by
        simpa [walletBal, hv] using h
      exact ih h2

/-- Overwriting one user's wallet leaves every other user's balance alone. -/
theorem walletBal_set_ne (ws : List (String × Int)) (u v : String) (b : Int)
    (h : v ≠ u) :
    walletBal (setWalletBal ws v b) u = walletBal ws u := by
  induction ws with
  | nil => simp [walletBal, setWalletBal]
  | cons p rest ih =>
    rcases p with ⟨w, c⟩
    by_cases hw : w = v
    · subst hw
      have hs : setWalletBal ((w, c) :: rest) w b
          = (w, b) :: setWalletBal rest w b := by
        simp [setWalletBal]
      rw [hs]
      show (if w = u then some b else walletBal (setWalletBal rest w b) u)
        = walletBal ((w, c) :: rest) u
      rw [if_neg h]
      show walletBal (setWalletBal rest w b) u
        = if w = u then some c else walletBal rest u
      rw [if_neg h]
      exact ih
    · have hs : setWalletBal ((w, c) :: rest) v b
          = (w, c) :: setWalletBal rest v b := by
        simp [setWalletBal, hw]
      rw [hs]
      show (if w = u then some c else walletBal (setWalletBal rest v b) u)
        = walletBal ((w, c) :: rest) u
      by_cases hu : w = u
      · rw [if_pos hu]
        show _ = if w = u then some c else walletBal rest u
        rw [if_pos hu]
      · rw [if_neg hu]
        show _ = if w = u then some c else walletBal rest u
        rw [if_neg hu]
        exact ih

/-- Sample vehicle used by the concrete scenarios below. -/
def carS : Vehicle := { vtype := "Sedan", color := "Red", plate := "P1" }

/-- The C1 scenario ride: one seat left. -/
def rideC1 : Ride :=
  { id := "R", driverId := "D", driverName := "Dan",
    from_ := "Toronto Downtown", to_ := "Mississauga", startTime := "t1",
    availableSeats := 1, pricePerSeat := 15,
    route := some ["Toronto Downtown", "Mississauga"], car := carS,
    status := "active" }

/-- The C1 scenario pending requests against `rideC1`. -/
def reqC1 (i rid : String) : RideRequest :=
  { id := i, rideId := "R", riderId := rid, riderName := "Rita",
    driverId := "D", driverName := "Dan", from_ := "Toronto Downtown",
    to_ := "Mississauga", rideStartTime := "t1", price := 15,
    status := "pending" }

/-- The C1 scenario state: `availableSeats = 1`, two pending requests. -/
def sC1 : AppState :=
  { rides := [rideC1], requests := [reqC1 "q1" "r1", reqC1 "q2" "r2"],
    wallets := [("D", 100), ("r1", 50), ("r2", 50)], profiles := [] }

/-- C1 (counterexample): against a ride with `availableSeats = 1` and two
pending requests, the second sequential `acceptRequest` call is NOT rejected
— it reports success — and it drives the ride's `availableSeats` to `-1`. -/
theorem acceptRequest_second_call_not_rejected :
    (acceptRequest (acceptRequest sC1 "q1" "R").1 "q2" "R").2
        = Res.ok "Ride request accepted!" ∧
      ((acceptRequest (acceptRequest sC1 "q1" "R").1 "q2" "R").1.rides.find?
          (fun r => r.id = "R")).map Ride.availableSeats = some (-1) := by
  decide

/-- C1 (amended): `acceptRequest` applies no seat guard at all: whenever the
request document exists, the call reports success, marks the request
accepted, and decrements the ride's `availableSeats` by one regardless of its
current value — in particular a ride at zero or below is driven further
negative, and a second accept against a one-seat ride yields `-1`. -/
theorem acceptRequest_no_seat_guard (s : AppState) (requestId rideId : String)
    (req : RideRequest) (ride : Ride)
    (hreq : req ∈ s.requests) (hqid : req.id = requestId)
    (hride : ride ∈ s.rides) (hrid : ride.id = rideId) :
    (acceptRequest s requestId rideId).2 = Res.ok "Ride request accepted!" ∧
      { req with status := "accepted" }
          ∈ (acceptRequest s requestId rideId).1.requests ∧
      { ride with availableSeats := ride.availableSeats - 1 }
          ∈ (acceptRequest s requestId rideId).1.rides := by
  have h1 : s.requests.any (fun q => q.id = requestId) = true := by
    rw [List.any_eq_true]
    exact ⟨req, hreq, by simp [hqid]⟩
  have h2 : s.rides.any (fun r => r.id = rideId) = true := by
    rw [List.any_eq_true]
    exact ⟨ride, hride, by simp [hrid]⟩
  refine ⟨by simp [acceptRequest, h1, h2], ?_, ?_⟩
  · simp only [acceptRequest, h1, h2, if_true]
    simp only [List.mem_map]
    exact ⟨req, hreq, by simp [hqid]⟩
  · simp only [acceptRequest, h1, h2, if_true]
    simp only [List.mem_map]
    exact ⟨ride, hride, by simp [hrid]⟩

/-- C1 (witness): the amended theorem applied to the concrete scenario. -/
theorem acceptRequest_no_seat_guard_witness :
    reqC1 "q1" "r1" ∈ sC1.requests ∧ rideC1 ∈ sC1.rides ∧
      ((acceptRequest sC1 "q1" "R").2 = Res.ok "Ride request accepted!" ∧
        { reqC1 "q1" "r1" with status := "accepted" }
            ∈ (acceptRequest sC1 "q1" "R").1.requests ∧
        { rideC1 with availableSeats := rideC1.availableSeats - 1 }
            ∈ (acceptRequest sC1 "q1" "R").1.rides) :=
  ⟨by decide, by decide,
    acceptRequest_no_seat_guard sC1 "q1" "R" (reqC1 "q1" "r1") rideC1
      (by decide) (by decide) (by decide) (by decide)⟩

/-- C5: with the wallet document present and the live snapshot `b` agreeing
with it, `handleWithdrawFunds`:
fails leaving the state untouched whenever `a > b` (and reports the
insufficient-balance error whenever additionally `a > 0`);
subtracts `a` from the balance and succeeds whenever `0 < a ≤ b`;
fails with the invalid-amount error leaving the state untouched whenever
`a ≤ 0`. -/
theorem handleWithdrawFunds_guards (s : AppState) (uid : String) (b a : Int)
    (hw : walletBal s.wallets uid = some b) :
    (b < a → (handleWithdrawFunds s uid b (some a)).1 = s ∧
      (handleWithdrawFunds s uid b (some a)).2.isOk = false ∧
      (0 < a → (handleWithdrawFunds s uid b (some a)).2
        = Res.err "Insufficient balance.")) ∧
    (0 < a → a ≤ b →
      (handleWithdrawFunds s uid b (some a)).2
          = Res.ok "Successfully withdrew from your wallet." ∧
      walletBal (handleWithdrawFunds s uid b (some a)).1.wallets uid
          = some (b - a)) ∧
    (a ≤ 0 → handleWithdrawFunds s uid b (some a)
        = (s, Res.err "Please enter a valid amount.")) := by
  have hsome : (walletBal s.wallets uid).isSome = true := by
    rw [hw]; rfl
  refine ⟨fun hba => ?_, fun ha hab => ?_, fun ha => ?_⟩
  · by_cases ha : a ≤ 0
    · refine ⟨by simp [handleWithdrawFunds, ha],
        by simp [handleWithdrawFunds, ha, Res.isOk],
        fun h0 => absurd h0 (by omega)⟩
    · refine ⟨by simp [handleWithdrawFunds, ha, hba],
        by simp [handleWithdrawFunds, ha, hba, Res.isOk],
        fun _ => by simp [handleWithdrawFunds, ha, hba]⟩
  · have h1 : ¬a ≤ 0 := by omega
    have h2 : ¬a > b := by omega
    have he : handleWithdrawFunds s uid b (some a) =
        ({ s with wallets := setWalletBal s.wallets uid (b - a) },
          Res.ok "Successfully withdrew from your wallet.") := by
      simp [handleWithdrawFunds, h1, h2, hsome]
    rw [he]
    exact ⟨rfl, walletBal_set_self s.wallets uid (b - a) hsome⟩
  · simp [handleWithdrawFunds, ha]

/-- The C5 scenario state. -/
def sC5 : AppState :=
  { rides := [], requests := [], wallets := [("u", 100)], profiles := [] }

/-- C5 (witness): the guards theorem applied at balance 100 with a
withdrawal of 30. -/
theorem handleWithdrawFunds_guards_witness :
    walletBal sC5.wallets "u" = some 100 ∧
      ((handleWithdrawFunds sC5 "u" 100 (some 30)).2
          = Res.ok "Successfully withdrew from your wallet." ∧
        walletBal (handleWithdrawFunds sC5 "u" 100 (some 30)).1.wallets "u"
          = some 70) :=
  ⟨by decide,
    (handleWithdrawFunds_guards sC5 "u" 100 30 (by decide)).2.1
      (by decide) (by decide)⟩

end Carpool

namespace Carpool

/-- `acceptRequest` written as an explicit state when both documents exist. -/
theorem acceptRequest_eq (s : AppState) (requestId rideId : String)
    (h1 : s.requests.any (fun q => q.id = requestId) = true)
    (h2 : s.rides.any (fun r => r.id = rideId) = true) :
    acceptRequest s requestId rideId =
      ({ rides := s.rides.map fun r =>
            if r.id = rideId then
              { r with availableSeats := r.availableSeats - 1 } else r,
         requests := s.requests.map fun q =>
            if q.id = requestId then { q with status := "accepted" } else q,
         wallets := s.wallets, profiles := s.profiles },
        Res.ok "Ride request accepted!") := by
  simp [acceptRequest, h1, h2]

/-- `completeRide` written as an explicit state when the ride, the driver
wallet and the rider wallet all exist. -/
theorem completeRide_eq_debit (s : AppState) (driver : String)
    (localBal : Int) (rideId riderId : String) (price rb : Int)
    (h1 : s.rides.any (fun r => r.id = rideId) = true)
    (h2 : (walletBal s.wallets driver).isSome = true)
    (h3 : walletBal (setWalletBal s.wallets driver (localBal + price)) riderId
      = some rb) :
    completeRide s driver localBal rideId riderId price =
      ({ rides := s.rides.map fun r =>
            if r.id = rideId then { r with status := "completed" } else r,
         requests := s.requests.map fun q =>
            if q.rideId = rideId ∧ q.riderId = riderId ∧
                q.status = "accepted" then
              { q with status := "completed" } else q,
         wallets := setWalletBal
            (setWalletBal s.wallets driver (localBal + price)) riderId
            (rb - price),
         profiles := s.profiles },
        Res.ok "Ride marked as completed and payment processed!") := by
  simp [completeRide, h1, h2, h3]

/-- `completeRide` written as an explicit state when the ride and the driver
wallet exist but the rider has no wallet document. -/
theorem completeRide_eq_nodebit (s : AppState) (driver : String)
    (localBal : Int) (rideId riderId : String) (price : Int)
    (h1 : s.rides.any (fun r => r.id = rideId) = true)
    (h2 : (walletBal s.wallets driver).isSome = true)
    (h3 : walletBal (setWalletBal s.wallets driver (localBal + price)) riderId
      = none) :
    completeRide s driver localBal rideId riderId price =
      ({ rides := s.rides.map fun r =>
            if r.id = rideId then { r with status := "completed" } else r,
         requests := s.requests.map fun q =>
            if q.rideId = rideId ∧ q.riderId = riderId ∧
                q.status = "accepted" then
              { q with status := "completed" } else q,
         wallets := setWalletBal s.wallets driver (localBal + price),
         profiles := s.profiles },
        Res.ok "Ride marked as completed and payment processed!") := by
  simp [completeRide, h1, h2, h3]

/-- C2: starting from a pending request against an existing ride, with both
wallet documents present (driver balance `db`, rider balance `rb`) and
distinct driver and rider, `acceptRequest` followed by
`completeRide(rideId, riderId, price)` with the request's price succeeds,
leaves every copy of the ride completed, completes the request, and settles
the balances at `db + price` and `rb - price`. -/
theorem accept_then_complete_settlement
    (s : AppState) (driver : String) (req : RideRequest) (ride : Ride)
    (db rb price : Int)
    (hreq : req ∈ s.requests) (hpend : req.status = "pending")
    (hride : ride ∈ s.rides) (hid : ride.id = req.rideId)
    (hdb : walletBal s.wallets driver = some db)
    (hrb : walletBal s.wallets req.riderId = some rb)
    (hne : driver ≠ req.riderId)
    (hprice : price = req.price) :
    (completeRide (acceptRequest s req.id req.rideId).1 driver db
        req.rideId req.riderId price).2
      = Res.ok "Ride marked as completed and payment processed!" ∧
    (∀ r ∈ (completeRide (acceptRequest s req.id req.rideId).1 driver db
        req.rideId req.riderId price).1.rides,
      r.id = req.rideId → r.status = "completed") ∧
    { req with status := "completed" }
      ∈ (completeRide (acceptRequest s req.id req.rideId).1 driver db
          req.rideId req.riderId price).1.requests ∧
    walletBal (completeRide (acceptRequest s req.id req.rideId).1 driver db
        req.rideId req.riderId price).1.wallets driver = some (db + price) ∧
    walletBal (completeRide (acceptRequest s req.id req.rideId).1 driver db
        req.rideId req.riderId price).1.wallets req.riderId
      = some (rb - price) := by
  have h1 : s.requests.any (fun q => q.id = req.id) = true := by
    rw [List.any_eq_true]
    exact ⟨req, hreq, by simp⟩
  have h2 : s.rides.any (fun r => r.id = req.rideId) = true := by
    rw [List.any_eq_true]
    exact ⟨ride, hride, by simp [hid]⟩
  set s1 := (acceptRequest s req.id req.rideId).1 with hs1
  have e := acceptRequest_eq s req.id req.rideId h1 h2
  have ew : s1.wallets = s.wallets := by rw [hs1, e]
  have er : s1.rides = s.rides.map fun r =>
      if r.id = req.rideId then
        { r with availableSeats := r.availableSeats - 1 } else r := by
    rw [hs1, e]
  have eq2 : s1.requests = s.requests.map fun q =>
      if q.id = req.id then { q with status := "accepted" } else q := by
    rw [hs1, e]
  have h1' : s1.rides.any (fun r => r.id = req.rideId) = true := by
    rw [er, List.any_eq_true]
    refine ⟨_, List.mem_map_of_mem _ hride, ?_⟩
    simp [hid]
  have h2' : (walletBal s1.wallets driver).isSome = true := by
    rw [ew, hdb]; rfl
  have h3' : walletBal (setWalletBal s1.wallets driver (db + price))
      req.riderId = some rb := by
    rw [ew, walletBal_set_ne s.wallets req.riderId driver (db + price) hne]
    exact hrb
  have hC := completeRide_eq_debit s1 driver db req.rideId req.riderId price
    rb h1' h2' h3'
  rw [hC]
  refine ⟨rfl, ?_, ?_, ?_, ?_⟩
  · intro r hr hrid
    obtain ⟨r0, hr0, rfl⟩ := List.mem_map.1 hr
    by_cases h : r0.id = req.rideId
    · simp [h]
    · rw [if_neg h] at hrid ⊢
      exact absurd hrid h
  · have hacc : { req with status := "accepted" } ∈ s1.requests := by
      rw [eq2]
      exact List.mem_map.2 ⟨req, hreq, by simp⟩
    exact List.mem_map.2 ⟨{ req with status := "accepted" }, hacc, by simp⟩
  · show walletBal (setWalletBal (setWalletBal s1.wallets driver (db + price))
      req.riderId (rb - price)) driver = some (db + price)
    rw [walletBal_set_ne _ driver req.riderId (rb - price) (Ne.symm hne)]
    exact walletBal_set_self s1.wallets driver (db + price) h2'
  · refine walletBal_set_self _ req.riderId (rb - price) ?_
    rw [h3']; rfl

/-- The C2 scenario ride, request and state. -/
def rideC2 : Ride :=
  { id := "R2", driverId := "D2", driverName := "Dan",
    from_ := "A", to_ := "B", startTime := "t1",
    availableSeats := 2, pricePerSeat := 15,
    route := some ["A", "B"], car := carS, status := "active" }

/-- The C2 scenario pending request. -/
def reqC2 : RideRequest :=
  { id := "q21", rideId := "R2", riderId := "r21", riderName := "Rita",
    driverId := "D2", driverName := "Dan", from_ := "A", to_ := "B",
    rideStartTime := "t1", price := 15, status := "pending" }

/-- The C2 scenario state: both wallets exist. -/
def sC2 : AppState :=
  { rides := [rideC2], requests := [reqC2],
    wallets := [("D2", 100), ("r21", 50)], profiles := [] }

/-- C2 (witness): the settlement theorem at the concrete scenario. -/
theorem accept_then_complete_settlement_witness :
    reqC2 ∈ sC2.requests ∧ rideC2 ∈ sC2.rides ∧
      (walletBal (completeRide (acceptRequest sC2 reqC2.id reqC2.rideId).1
          "D2" 100 reqC2.rideId reqC2.riderId 15).1.wallets "D2"
        = some (100 + 15) ∧
      walletBal (completeRide (acceptRequest sC2 reqC2.id reqC2.rideId).1
          "D2" 100 reqC2.rideId reqC2.riderId 15).1.wallets reqC2.riderId
        = some (50 - 15)) :=
  ⟨by decide, by decide,
    (accept_then_complete_settlement sC2 "D2" reqC2 rideC2 100 50 15
      (by decide) (by decide) (by decide) (by decide) (by decide) (by decide)
      (by decide) (by decide)).2.2.2⟩

/-- C3: when `completeRide` runs against an existing ride with the driver's
wallet present (balance snapshot `db`) but no wallet document for the rider,
the call still reports success, the driver is credited `price`, the rider is
never debited (the only wallet write is the driver credit), and no error is
surfaced. -/
theorem completeRide_skips_missing_rider_wallet
    (s : AppState) (driver riderId rideId : String) (db price : Int)
    (h1 : s.rides.any (fun r => r.id = rideId) = true)
    (hdb : walletBal s.wallets driver = some db)
    (hrw : walletBal s.wallets riderId = none) :
    (completeRide s driver db rideId riderId price).2
      = Res.ok "Ride marked as completed and payment processed!" ∧
    walletBal (completeRide s driver db rideId riderId price).1.wallets driver
      = some (db + price) ∧
    walletBal (completeRide s driver db rideId riderId price).1.wallets riderId
      = none ∧
    (completeRide s driver db rideId riderId price).1.wallets
      = setWalletBal s.wallets driver (db + price) := by
  have hne : driver ≠ riderId := by
    intro h
    rw [h, hrw] at hdb
    exact Option.noConfusion hdb
  have h2 : (walletBal s.wallets driver).isSome = true := by
    rw [hdb]; rfl
  have h3 : walletBal (setWalletBal s.wallets driver (db + price)) riderId
      = none := by
    rw [walletBal_set_ne s.wallets riderId driver (db + price) hne]
    exact hrw
  rw [completeRide_eq_nodebit s driver db rideId riderId price h1 h2 h3]
  exact ⟨rfl, walletBal_set_self s.wallets driver (db + price) h2, h3, rfl⟩

/-- The C3 scenario state: the rider `r21` has no wallet document. -/
def sC3 : AppState :=
  { rides := [rideC2], requests := [{ reqC2 with status := "accepted" }],
    wallets := [("D2", 100)], profiles := [] }

/-- C3 (witness): the missing-rider-wallet theorem at the concrete state. -/
theorem completeRide_skips_missing_rider_wallet_witness :
    walletBal sC3.wallets "r21" = none ∧
      ((completeRide sC3 "D2" 100 "R2" "r21" 15).2
          = Res.ok "Ride marked as completed and payment processed!" ∧
        walletBal (completeRide sC3 "D2" 100 "R2" "r21" 15).1.wallets "D2"
          = some (100 + 15) ∧
        walletBal (completeRide sC3 "D2" 100 "R2" "r21" 15).1.wallets "r21"
          = none ∧
        (completeRide sC3 "D2" 100 "R2" "r21" 15).1.wallets
          = setWalletBal sC3.wallets "D2" (100 + 15)) :=
  ⟨by decide,
    completeRide_skips_missing_rider_wallet sC3 "D2" "r21" "R2" 100 15
      (by decide) (by decide) (by decide)⟩

end Carpool

namespace Carpool

/-- C4: `requestRide` is idempotent against duplicate pending requests.
For any state in which this rider already holds a pending or accepted
request for the ride, the call leaves the request catalog untouched and
reports an error; and from a clean state a first call appends exactly one
new pending request while the immediately following second call is rejected
with the duplicate-request error and adds nothing. -/
theorem requestRide_idempotent_guard (s : AppState) (u : CurrentUser)
    (rideId newId newId2 : String) (ride : Ride)
    (hrole : u.userType = "rider")
    (hfind : s.rides.find? (fun r => r.id = rideId) = some ride)
    (hseats : 0 < ride.availableSeats)
    (hnodup : ∀ q ∈ s.requests, ¬(q.rideId = rideId ∧ q.riderId = u.id ∧
      (q.status = "pending" ∨ q.status = "accepted"))) :
    (∀ s' : AppState, ∀ q ∈ s'.requests,
      q.rideId = rideId → q.riderId = u.id →
      (q.status = "pending" ∨ q.status = "accepted") →
      (requestRide s' u rideId newId2).1 = s' ∧
        (requestRide s' u rideId newId2).2.isOk = false) ∧
    (requestRide s u rideId newId).2.isOk = true ∧
    (requestRide s u rideId newId).1.requests.length
      = s.requests.length + 1 ∧
    requestRide (requestRide s u rideId newId).1 u rideId newId2
      = ((requestRide s u rideId newId).1,
        Res.err "You already have a pending or accepted request for this ride.") := by
  have hrr : ¬(u.userType ≠ "rider") := by rw [hrole]; simp
  have hsn : ¬(ride.availableSeats ≤ 0) := by omega
  have hno2 : ∀ x ∈ s.requests, x.rideId = rideId → x.riderId = u.id →
      ¬x.status = "pending" ∧ ¬x.status = "accepted" := by
    intro x hx h1 h2
    exact ⟨fun h3 => hnodup x hx ⟨h1, h2, Or.inl h3⟩,
      fun h3 => hnodup x hx ⟨h1, h2, Or.inr h3⟩⟩
  have e1 : requestRide s u rideId newId =
      ({ s with requests := s.requests ++
          [{ id := newId, rideId := rideId, riderId := u.id,
             riderName := u.name, driverId := ride.driverId,
             driverName := ride.driverName, from_ := ride.from_,
             to_ := ride.to_, rideStartTime := ride.startTime,
             price := ride.pricePerSeat, status := "pending" }] },
        Res.ok "Ride request sent successfully! Driver will be notified.") := by
    simp [requestRide, hrr, hfind, hsn]
    exact hno2
  refine ⟨?_, ?_, ?_, ?_⟩
  · intro s' q hq h1 h2 h3
    have hex : ∃ x ∈ s'.requests, x.rideId = rideId ∧ x.riderId = u.id ∧
        (x.status = "pending" ∨ x.status = "accepted") := ⟨q, hq, h1, h2, h3⟩
    rcases hf : s'.rides.find? (fun r => r.id = rideId) with _ | r
    · exact ⟨by simp [requestRide, hrr, hf],
        by simp [requestRide, hrr, hf, Res.isOk]⟩
    · by_cases hs0 : r.availableSeats ≤ 0
      · exact ⟨by simp [requestRide, hrr, hf, hs0],
          by simp [requestRide, hrr, hf, hs0, Res.isOk]⟩
      · exact ⟨by simp [requestRide, hrr, hf, hs0, hex],
          by simp [requestRide, hrr, hf, hs0, hex, Res.isOk]⟩
  · rw [e1]; rfl
  · rw [e1]; simp
  · rw [e1]
    have hex2 : ∃ x ∈ (s.requests ++
        [{ id := newId, rideId := rideId, riderId := u.id,
           riderName := u.name, driverId := ride.driverId,
           driverName := ride.driverName, from_ := ride.from_,
           to_ := ride.to_, rideStartTime := ride.startTime,
           price := ride.pricePerSeat,
           status := "pending" : RideRequest }]),
        x.rideId = rideId ∧ x.riderId = u.id ∧
        (x.status = "pending" ∨ x.status = "accepted") :=
      ⟨_, List.mem_append_right _ (List.mem_singleton_self _),
        rfl, rfl, Or.inl rfl⟩
    simp [requestRide, hrr, hfind, hsn, hex2]

/-- The C4 scenario ride and state: a rider `r41` with no prior request. -/
def rideC4 : Ride :=
  { id := "R4", driverId := "D4", driverName := "Dan",
    from_ := "A", to_ := "B", startTime := "t1",
    availableSeats := 3, pricePerSeat := 12,
    route := some ["A", "B"], car := carS, status := "active" }

/-- The C4 scenario state. -/
def sC4 : AppState :=
  { rides := [rideC4], requests := [], wallets := [], profiles := [] }

/-- The C4 scenario rider. -/
def riderC4 : CurrentUser :=
  { id := "r41", name := "Rita", userType := "rider", vehicle := none }

/-- C4 (witness): the idempotency theorem at the concrete scenario. -/
theorem requestRide_idempotent_guard_witness :
    sC4.rides.find? (fun r => r.id = "R4") = some rideC4 ∧
      ((requestRide sC4 riderC4 "R4" "n1").2.isOk = true ∧
        (requestRide sC4 riderC4 "R4" "n1").1.requests.length
          = sC4.requests.length + 1 ∧
        requestRide (requestRide sC4 riderC4 "R4" "n1").1 riderC4 "R4" "n2"
          = ((requestRide sC4 riderC4 "R4" "n1").1,
            Res.err "You already have a pending or accepted request for this ride.")) :=
  ⟨by decide,
    (requestRide_idempotent_guard sC4 riderC4 "R4" "n1" "n2" rideC4
      (by decide) (by decide) (by decide) (by decide)).2⟩

end Carpool

namespace Carpool

/-- `rideMatches` spelled out as a conjunction of conditions. -/
theorem rideMatches_iff (q : SearchQuery) (r : Ride) :
    rideMatches q r = true ↔
      (q.from_ = "" ∨ includes (jsToLower r.from_) (jsToLower q.from_) = true) ∧
      (q.to_ = "" ∨ includes (jsToLower r.to_) (jsToLower q.to_) = true) ∧
      0 < r.availableSeats ∧
      (fullSearchRoute q = [] ∨
        checkRouteOverlap r.route (some (fullSearchRoute q)) = true) := by
  unfold rideMatches
  by_cases h1 : q.from_ = "" <;> by_cases h2 : q.to_ = "" <;>
    by_cases h3 : fullSearchRoute q = [] <;>
      simp [h1, h2, h3, and_assoc]

/-- C6 (amended): a ride is returned by `handleSearch` iff it is in the
catalog, its from/to contain the non-empty search from/to case-insensitively,
it has a free seat, and — whenever the combined search route
`[from, ...route stops, to]` with blanks removed is non-empty, which includes
searches that supply only `from`/`to` and no route stops — its stored route
overlaps that combined route.  The overlap check is skipped only when `from`,
`to` and every supplied route stop are all blank. -/
theorem handleSearch_mem_iff (rides : List Ride) (q : SearchQuery) (r : Ride) :
    r ∈ handleSearch rides q ↔
      r ∈ rides ∧
      (q.from_ = "" ∨ includes (jsToLower r.from_) (jsToLower q.from_) = true) ∧
      (q.to_ = "" ∨ includes (jsToLower r.to_) (jsToLower q.to_) = true) ∧
      0 < r.availableSeats ∧
      (fullSearchRoute q = [] ∨
        checkRouteOverlap r.route (some (fullSearchRoute q)) = true) := by
  rw [handleSearch, List.mem_filter, rideMatches_iff]

/-- The C6 counterexample query: a non-empty `from`, no route stops. -/
def qC6 : SearchQuery := { from_ := "down", to_ := "", route := [] }

/-- The C6 counterexample ride: matching `from`, free seats, empty stored
route. -/
def rideC6 : Ride :=
  { id := "R6", driverId := "D6", driverName := "Dan",
    from_ := "Downtown Core", to_ := "X", startTime := "t1",
    availableSeats := 2, pricePerSeat := 10, route := some [],
    car := carS, status := "active" }

/-- C6 (counterexample): the criteria supply no route points and the ride
matches on `from`, `to` and seats, so the claim includes it — but
`handleSearch` still applies the overlap check against `["down"]` (built from
the non-empty `from`) and excludes the ride. -/
theorem handleSearch_skip_claim_false :
    searchRoutePoints qC6 = [] ∧ rideMatchesClaim qC6 rideC6 = true ∧
      rideMatches qC6 rideC6 = false ∧ handleSearch [rideC6] qC6 = [] := by
  decide

/-- C10: `checkRouteOverlap` is `false` whenever either side is the empty
list or a missing/non-array value; consequently a ride whose stored route is
empty or missing is excluded from every search whose criteria supply at
least one non-blank route point, even when its from/to fields match. -/
theorem emptyRoute_never_matches (A : Option (List String))
    (rides : List Ride) (q : SearchQuery) (r : Ride)
    (hq : searchRoutePoints q ≠ [])
    (hr : r.route = none ∨ r.route = some []) :
    checkRouteOverlap A (some []) = false ∧
    checkRouteOverlap (some []) A = false ∧
    checkRouteOverlap A none = false ∧
    checkRouteOverlap none A = false ∧
    r ∉ handleSearch rides q := by
  refine ⟨?_, ?_, ?_, ?_, ?_⟩
  · rcases A with _ | l <;> simp [checkRouteOverlap]
  · rcases A with _ | l <;> simp [checkRouteOverlap]
  · rcases A with _ | l <;> simp [checkRouteOverlap]
  · rfl
  · obtain ⟨p, hp⟩ := List.exists_mem_of_ne_nil _ hq
    have hpred : (jsTrim p ≠ "") := by
      have := List.mem_filter.1 hp
      simpa using this.2
    have hfull : fullSearchRoute q ≠ [] := by
      refine List.ne_nil_of_mem (a := p) ?_
      rw [fullSearchRoute]
      refine List.mem_filter.2 ⟨?_, by simpa using hpred⟩
      simp [hp]
    intro hmem
    rw [handleSearch, List.mem_filter] at hmem
    have hm := (rideMatches_iff q r).1 hmem.2
    rcases hm.2.2.2 with h | h
    · exact hfull h
    · rcases hr with h0 | h0 <;> rw [h0] at h <;> simp [checkRouteOverlap] at h

/-- The C10 scenario query: one non-blank route point. -/
def qC10 : SearchQuery := { from_ := "", to_ := "", route := ["midtown"] }

/-- The C10 scenario ride: empty stored route, matching everything else. -/
def rideC10 : Ride :=
  { id := "RX", driverId := "DX", driverName := "Dan",
    from_ := "midtown", to_ := "midtown", startTime := "t1",
    availableSeats := 5, pricePerSeat := 10, route := some [],
    car := carS, status := "active" }

/-- C10 (witness): the exclusion theorem at the concrete scenario. -/
theorem emptyRoute_never_matches_witness :
    searchRoutePoints qC10 ≠ [] ∧
      (checkRouteOverlap (some ["a"]) (some []) = false ∧
        checkRouteOverlap (some []) (some ["a"]) = false ∧
        checkRouteOverlap (some ["a"]) none = false ∧
        checkRouteOverlap none (some ["a"]) = false ∧
        rideC10 ∉ handleSearch [rideC10] qC10) :=
  ⟨by decide,
    emptyRoute_never_matches (some ["a"]) [rideC10] qC10 rideC10
      (by decide) (by decide)⟩

end Carpool

namespace Carpool

/-- The ride document `handlePostRide` persists on success (App.js:657). -/
def postedRide (u : CurrentUser) (d : RideDraft) (newId : String) : Ride :=
  { id := newId, driverId := u.id, driverName := u.name,
    from_ := d.from_, to_ := d.to_, startTime := d.startTime,
    availableSeats := d.availableSeats, pricePerSeat := d.pricePerSeat,
    route := some ([d.from_] ++
      (d.route.filter fun point => jsTrim point ≠ "") ++ [d.to_]),
    car := u.vehicle.getD ⟨"Unknown", "Unknown", "N/A"⟩,
    status := "active" }

/-- The profile document `handleRegistration` persists on success
(App.js:210). -/
def registeredProfile (rd : RegData) : UserProfileDoc :=
  { name := rd.name, email := rd.email, phone := rd.phone,
    userType := rd.userType,
    vehicle := if rd.userType = "driver" then some rd.vehicle else none,
    verificationStatus := "pending" }

/-- C8 (amended): `handlePostRide` validates by JS truthiness only — it
rejects a draft exactly when a required field is the empty string or the
number zero, so `availableSeats = -1` or a negative price passes; the role
check runs after validation; on success it appends one active ride whose
route is `[from, ...non-blank stops, to]`; on either failure nothing is
persisted. -/
theorem handlePostRide_spec (s : AppState) (u : CurrentUser) (d : RideDraft)
    (newId : String) :
    ((d.from_ = "" ∨ d.to_ = "" ∨ d.startTime = "" ∨ d.availableSeats = 0 ∨
        d.pricePerSeat = 0) →
      handlePostRide s u d newId
        = (s, Res.err "Please fill in all required ride details.")) ∧
    (d.from_ ≠ "" → d.to_ ≠ "" → d.startTime ≠ "" → d.availableSeats ≠ 0 →
      d.pricePerSeat ≠ 0 → u.userType ≠ "driver" →
      handlePostRide s u d newId
        = (s, Res.err "Only drivers can post rides.")) ∧
    (d.from_ ≠ "" → d.to_ ≠ "" → d.startTime ≠ "" → d.availableSeats ≠ 0 →
      d.pricePerSeat ≠ 0 → u.userType = "driver" →
      handlePostRide s u d newId
        = ({ s with rides := s.rides ++ [postedRide u d newId] },
          Res.ok "Ride posted successfully!")) := by
  refine ⟨fun h => ?_, fun h1 h2 h3 h4 h5 h6 => ?_,
    fun h1 h2 h3 h4 h5 h6 => ?_⟩
  · unfold handlePostRide
    rw [if_pos h]
  · have hv : ¬(d.from_ = "" ∨ d.to_ = "" ∨ d.startTime = "" ∨
        d.availableSeats = 0 ∨ d.pricePerSeat = 0) := by
      push_neg
      exact ⟨h1, h2, h3, h4, h5⟩
    unfold handlePostRide
    rw [if_neg hv, if_pos h6]
  · have hv : ¬(d.from_ = "" ∨ d.to_ = "" ∨ d.startTime = "" ∨
        d.availableSeats = 0 ∨ d.pricePerSeat = 0) := by
      push_neg
      exact ⟨h1, h2, h3, h4, h5⟩
    have hd : ¬(u.userType ≠ "driver") := fun hh => hh h6
    unfold handlePostRide
    rw [if_neg hv, if_neg hd]
    rfl

/-- The C8 scenario: empty store, a registered driver. -/
def sC8 : AppState :=
  { rides := [], requests := [], wallets := [], profiles := [] }

/-- The C8 scenario driver. -/
def uC8 : CurrentUser :=
  { id := "D8", name := "Dan", userType := "driver", vehicle := some carS }

/-- The C8 counterexample draft: `availableSeats = -1` (truthy in JS). -/
def dC8 : RideDraft :=
  { from_ := "A", to_ := "B", startTime := "t", availableSeats := -1,
    pricePerSeat := 5, route := [] }

/-- C8 (counterexample): a draft with `availableSeats = -1` — which the
claim says must be rejected by the `availableSeats ≥ 1` validation — is
accepted and persisted with `-1` seats. -/
theorem handlePostRide_negative_seats_cex :
    (handlePostRide sC8 uC8 dC8 "R8").2 = Res.ok "Ride posted successfully!" ∧
      ((handlePostRide sC8 uC8 dC8 "R8").1.rides.find?
          (fun r => r.id = "R8")).map Ride.availableSeats = some (-1) := by
  decide

/-- C8 (witness): the amended characterization at all three branches. -/
theorem handlePostRide_spec_witness :
    handlePostRide sC8 uC8 { dC8 with from_ := "" } "Rv"
        = (sC8, Res.err "Please fill in all required ride details.") ∧
    handlePostRide sC8 { uC8 with userType := "rider" } dC8 "Rv"
        = (sC8, Res.err "Only drivers can post rides.") ∧
    (handlePostRide sC8 uC8 dC8 "R8").2 = Res.ok "Ride posted successfully!" :=
  ⟨(handlePostRide_spec sC8 uC8 { dC8 with from_ := "" } "Rv").1 (Or.inl rfl),
    (handlePostRide_spec sC8 { uC8 with userType := "rider" } dC8 "Rv").2.1
      (by decide) (by decide) (by decide) (by decide) (by decide) (by decide),
    by rw [(handlePostRide_spec sC8 uC8 dC8 "R8").2.2 (by decide) (by decide)
      (by decide) (by decide) (by decide) (by decide)]⟩

/-- C9: `handleRegistration` requires name, email, phone, role non-empty; a
driver additionally needs all vehicle fields and the license flag, a rider
the id flag; on success one write persists the profile with
`verificationStatus = "pending"` (vehicle kept only for drivers); on every
validation failure the state is returned untouched — no partial writes. -/
theorem handleRegistration_spec (s : AppState) (userId : String)
    (rd : RegData) :
    ((rd.name = "" ∨ rd.email = "" ∨ rd.phone = "" ∨ rd.userType = "") →
      handleRegistration s userId rd
        = (s, Res.err "Please fill in all required fields.")) ∧
    (rd.name ≠ "" → rd.email ≠ "" → rd.phone ≠ "" → rd.userType ≠ "" →
      rd.userType = "driver" →
      (rd.vehicle.vtype = "" ∨ rd.vehicle.color = "" ∨
        rd.vehicle.plate = "" ∨ ¬rd.licenseUploaded) →
      handleRegistration s userId rd
        = (s, Res.err
            "Please provide all vehicle details and upload your license.")) ∧
    (rd.name ≠ "" → rd.email ≠ "" → rd.phone ≠ "" → rd.userType ≠ "" →
      rd.userType = "rider" → ¬rd.idUploaded →
      handleRegistration s userId rd
        = (s, Res.err "Please upload a valid ID.")) ∧
    (rd.name ≠ "" → rd.email ≠ "" → rd.phone ≠ "" → rd.userType ≠ "" →
      (rd.userType = "driver" → rd.vehicle.vtype ≠ "" ∧
        rd.vehicle.color ≠ "" ∧ rd.vehicle.plate ≠ "" ∧ rd.licenseUploaded) →
      (rd.userType = "rider" → rd.idUploaded) →
      handleRegistration s userId rd
        = ({ s with profiles :=
              setProfileDoc s.profiles userId (registeredProfile rd) },
          Res.ok
            "Registration successful! Your profile is pending verification.")) := by
  refine ⟨fun h => ?_, fun h1 h2 h3 h4 h5 h6 => ?_,
    fun h1 h2 h3 h4 h5 h6 => ?_, fun h1 h2 h3 h4 hD hR => ?_⟩
  · unfold handleRegistration
    rw [if_pos h]
  · have hv : ¬(rd.name = "" ∨ rd.email = "" ∨ rd.phone = "" ∨
        rd.userType = "") := by
      push_neg
      exact ⟨h1, h2, h3, h4⟩
    unfold handleRegistration
    rw [if_neg hv, if_pos ⟨h5, h6⟩]
  · have hv : ¬(rd.name = "" ∨ rd.email = "" ∨ rd.phone = "" ∨
        rd.userType = "") := by
      push_neg
      exact ⟨h1, h2, h3, h4⟩
    have hvd : ¬(rd.userType = "driver" ∧ (rd.vehicle.vtype = "" ∨
        rd.vehicle.color = "" ∨ rd.vehicle.plate = "" ∨
        ¬rd.licenseUploaded)) := by
      rintro ⟨hd, _⟩
      rw [h5] at hd
      exact absurd hd (by decide)
    unfold handleRegistration
    rw [if_neg hv, if_neg hvd, if_pos ⟨h5, h6⟩]
  · have hv : ¬(rd.name = "" ∨ rd.email = "" ∨ rd.phone = "" ∨
        rd.userType = "") := by
      push_neg
      exact ⟨h1, h2, h3, h4⟩
    have hvd : ¬(rd.userType = "driver" ∧ (rd.vehicle.vtype = "" ∨
        rd.vehicle.color = "" ∨ rd.vehicle.plate = "" ∨
        ¬rd.licenseUploaded)) := by
      rintro ⟨hd, hbad⟩
      obtain ⟨a, b, c, l⟩ := hD hd
      rcases hbad with h | h | h | h
      exacts [a h, b h, c h, h l]
    have hvr : ¬(rd.userType = "rider" ∧ ¬rd.idUploaded) := by
      rintro ⟨hr2, hni⟩
      exact hni (hR hr2)
    unfold handleRegistration
    rw [if_neg hv, if_neg hvd, if_neg hvr]
    rfl

/-- The C9 scenario registration data: a complete rider profile. -/
def rdC9 : RegData :=
  { name := "Nia", email := "n@x", phone := "555", userType := "rider",
    vehicle := ⟨"", "", ""⟩, licenseUploaded := false, idUploaded := true }

/-- C9 (witness): the registration characterization at all four branches. -/
theorem handleRegistration_spec_witness :
    handleRegistration sC8 "u9" { rdC9 with name := "" }
        = (sC8, Res.err "Please fill in all required fields.") ∧
    handleRegistration sC8 "u9"
        { rdC9 with userType := "driver", licenseUploaded := false }
        = (sC8, Res.err
            "Please provide all vehicle details and upload your license.") ∧
    handleRegistration sC8 "u9" { rdC9 with idUploaded := false }
        = (sC8, Res.err "Please upload a valid ID.") ∧
    handleRegistration sC8 "u9" rdC9
        = ({ sC8 with profiles :=
              setProfileDoc sC8.profiles "u9" (registeredProfile rdC9) },
          Res.ok
            "Registration successful! Your profile is pending verification.") :=
  ⟨(handleRegistration_spec sC8 "u9" { rdC9 with name := "" }).1
      (Or.inl rfl),
    (handleRegistration_spec sC8 "u9"
        { rdC9 with userType := "driver", licenseUploaded := false }).2.1
      (by decide) (by decide) (by decide) (by decide) (by decide)
      (Or.inr (Or.inr (Or.inr (by decide)))),
    (handleRegistration_spec sC8 "u9" { rdC9 with idUploaded := false }).2.2.1
      (by decide) (by decide) (by decide) (by decide) (by decide) (by decide),
    by rw [(handleRegistration_spec sC8 "u9" rdC9).2.2.2 (by decide)
      (by decide) (by decide) (by decide) (fun h => absurd h (by decide))
      (fun _ => by decide)]⟩

end Carpool
